import Mathlib

/-!
Verification of the session-orchestration and response-rendering core of the
DataQualityAgent frontend (`src/frontend/src/App.js`,
`src/frontend/src/components/ChatInterface.js`,
`src/frontend/src/components/DataChart.js`, and the API service in
`src/unnamed/part_000`).

The JavaScript is shallowly embedded: plain objects become structures with
`Option` fields marking properties that may be `undefined`, JavaScript
truthiness of `x || y` on strings/arrays is made explicit, and the stateful
React handlers become explicit state-passing functions.  `Date.now()` values
are passed in as explicit `Nat` timestamps.
-/

namespace DataQualityAgent

/-- SessionStatus values used by `appStatus` in `App.js` and consumed by
`Header.js` / `ChatInterface.js`. -/
inductive Status where
  | idle
  | connecting
  | connected
  | loading
  | processing
  | error
  | disconnected
deriving DecidableEq, Repr

/-- A busy state: one the spec calls an in-flight state (`connecting`,
`loading`, `processing`). -/
def isBusy : Status → Bool
  | .connecting => true
  | .loading => true
  | .processing => true
  | _ => false

/-- JavaScript `a || b` for a string-valued property `a` that may be absent:
`undefined`/missing and the empty string are falsy, any other string wins. -/
def jsOr : Option String → String → String
  | some s, d => if s == "" then d else s
  | none, d => d

/-- One issue inside a tool result: `{severity, description}`. -/
structure Issue where
  severity : String
  description : String
deriving DecidableEq, Repr

/-- The object read by the warning scan in `getMessageStatus`
(`result.result?.result?.issues`): a possible further nesting level below a
tool result's `result` field. -/
structure NestedIssues where
  issues : Option (List Issue)
deriving DecidableEq, Repr

/-- The `result` field of a tool result as the code accesses it:
`result.result?.status` for errors and `result.result?.issues` per the data
model, plus the extra `result.result?.result` level the code dereferences. -/
structure InnerResult where
  status : Option String
  issues : Option (List Issue)
  result : Option NestedIssues
deriving DecidableEq, Repr

/-- A tool result `{toolName, result: {...}}` attached to an agent message. -/
structure ToolResult where
  toolName : String
  result : Option InnerResult
deriving DecidableEq, Repr

/-- `getMessageStatus` from `ChatInterface.js` (MessageBubble, lines 467-480).
`message.toolResults` is `none` when the property is absent; note that in the
source an *empty array* still enters the branch, because `if
(message.toolResults)` tests JavaScript truthiness and any array is truthy.
The error scan reads `result.result?.status`, the warning scan reads
`result.result?.result?.issues`. -/
def getMessageStatus (toolResults : Option (List ToolResult)) : Option String :=
  match toolResults with
  | none => none
  | some rs =>
    let hasErrors := rs.any fun r =>
      match r.result with
      | some ir => ir.status == some "error"
      | none => false
    let hasWarnings := rs.any fun r =>
      match r.result with
      | some ir =>
        match ir.result with
        | some nr =>
          match nr.issues with
          | some is => is.any fun i => i.severity == "warning"
          | none => false
        | none => false
      | none => false
    if hasErrors then some "error"
    else if hasWarnings then some "warning"
    else some "success"

/-- Modelled from the spec: the status-derivation algorithm of section 4.4
(error if any `result.status == error`, else warning if any issue of any tool
result has `severity == warning`, else success if `toolResults` is non-empty,
else no badge), written against the spec's own ToolResult shape
`{toolName, result: {status, issues?}}`.  Used only for comparison with
`getMessageStatus`. -/
def specStatusDerivation (toolResults : Option (List ToolResult)) : Option String :=
  match toolResults with
  | none => none
  | some rs =>
    if rs.isEmpty then none
    else if rs.any (fun r => (r.result.bind InnerResult.status) == some "error") then
      some "error"
    else if rs.any (fun r =>
        ((r.result.bind InnerResult.issues).getD []).any fun i =>
          i.severity == "warning") then
      some "warning"
    else some "success"

/-- The `data` prop of a chart component: `{x: [...], y: [...]}`, either
coordinate list possibly absent. -/
structure ChartData where
  x : Option (List String)
  y : Option (List Int)
deriving DecidableEq, Repr

/-- An entry of `message.components`: a JavaScript object dispatched on its
`type` tag.  Unused properties of a given tag default to the empty value,
mirroring `undefined` reads that the handlers never perform. -/
structure Component where
  type : String
  text : String := ""
  action : String := ""
  style : String := ""
  title : String := ""
  headers : List String := []
  rows : List (List String) := []
  chart_type : Option String := none
  data : Option ChartData := none
deriving DecidableEq, Repr

/-- The artifact produced for one component by `renderComponent` together with
the branch `DataChart.js` takes on it. -/
inductive Rendered where
  | table (title : String) (headers : List String) (rows : List (List String))
  | chartBar (title : String) (data : Option ChartData)
  | chartLine (title : String) (data : Option ChartData)
  | chartNoData (title : String)
  | button (text action style : String)
deriving DecidableEq, Repr

/-- The guard `if (!data || !data.x || !data.y || data.x.length === 0)` in
`DataChart.js` (line 173): arrays are truthy even when empty, so only a
missing `data`, missing `x`/`y`, or an empty `x` fails it. -/
def hasChartData : Option ChartData → Bool
  | none => false
  | some d => d.x.isSome && d.y.isSome && !((d.x.getD []).isEmpty)

/-- `DataChart.js`: when the data guard fails the component shows the
no-data message; otherwise `const ChartComponent = type === 'line' ? Line :
Bar` picks the chart kind. -/
def renderChart (ty : String) (title : String) (data : Option ChartData) : Rendered :=
  if !hasChartData data then .chartNoData title
  else if ty == "line" then .chartLine title data
  else .chartBar title data

/-- `renderComponent` from `ChatInterface.js` (MessageBubble, lines 430-465):
a switch on `component.type`; the chart case passes
`component.chart_type || 'bar'` to `DataChart`; the default case renders
nothing. -/
def renderComponent (c : Component) : Option Rendered :=
  if c.type == "table" then some (.table c.title c.headers c.rows)
  else if c.type == "chart" then some (renderChart (jsOr c.chart_type "bar") c.title c.data)
  else if c.type == "button" then some (.button c.text c.action c.style)
  else none

/-- The inline artifact sequence:
`message.components.map((component, index) => renderComponent(...))` with the
null results dropped. -/
def renderInline (cs : List Component) : List Rendered :=
  cs.filterMap renderComponent

/-- The filter `c => c.type === 'button'` used for the quick-action strip. -/
def isButtonComponent (c : Component) : Bool :=
  c.type == "button"

/-- The components selected for the secondary strip:
`message.components.filter(c => c.type === 'button')`. -/
def stripButtons (cs : List Component) : List Component :=
  cs.filter isButtonComponent

/-- The strip is rendered only when
`message.components.filter(c => c.type === 'button').length > 0`. -/
def stripShown (cs : List Component) : Bool :=
  !(stripButtons cs).isEmpty

/-- The `ActionButton`s rendered inside the `ButtonGroup` strip, in order. -/
def renderStrip (cs : List Component) : List Rendered :=
  (stripButtons cs).map fun b => .button b.text b.action b.style

/-- Whether a rendered artifact is a button. -/
def isRenderedButton : Rendered → Bool
  | .button _ _ _ => true
  | _ => false

/-- The `actionMap` object literal in `handleQuickAction` (`App.js`,
lines 244-250), as a lookup over its five own properties. -/
def actionMap (a : String) : Option String :=
  if a == "validate_data" then some "Please validate my data quality"
  else if a == "detect_anomalies" then some "Please detect any anomalies in my data"
  else if a == "get_insights" then some "Please give me insights about my campaign data"
  else if a == "fix_data" then some "Please fix the data quality issues"
  else if a == "fix_anomalies" then some "Please fix the detected anomalies"
  else none

/-- `handleQuickAction` (`App.js`, lines 243-254) resolves the chat text it
forwards to `handleSendMessage` as `actionMap[action] || action`. -/
def handleQuickAction (action : String) : String :=
  jsOr (actionMap action) action

/-- JavaScript `String.prototype.trim()`: the string with leading and
trailing whitespace removed (written over the character list so that it
evaluates by reduction). -/
def jsTrim (s : String) : String :=
  ⟨((s.data.dropWhile Char.isWhitespace).reverse.dropWhile Char.isWhitespace).reverse⟩

/-- The submission guard of `handleSubmit` in `ChatInterface.js`
(lines 161-167): `if (inputValue.trim() && !isLoading)`, where `App.js`
passes `isLoading = appStatus === 'processing'` (line 276).  Returns whether
`onSendMessage` is invoked. -/
def submitAccepted (inputValue : String) (appStatus : Status) : Bool :=
  !(jsTrim inputValue == "") && !(appStatus == Status.processing)

/-- The three failure shapes distinguished by the axios response interceptor
in `src/unnamed/part_000`: a response with an error status (carrying optional
`data.detail` / `data.message`), a request that got no response at all
(network failure or expiry of the fixed 30 000 ms timeout), and any other
exception (carrying its possibly-empty `message`). -/
inductive AxiosFailure where
  | withResponse (status : Nat) (detail : Option String) (message : Option String)
  | noResponse
  | other (message : Option String)
deriving DecidableEq, Repr

/-- The error classification of the response interceptor
(`src/unnamed/part_000`, lines 33-45): the message of the `Error` it throws. -/
def classifyApiError : AxiosFailure → String
  | .withResponse status detail message =>
    jsOr detail (jsOr message ("Server error: " ++ toString status))
  | .noResponse => "Cannot connect to server. Please make sure the backend is running."
  | .other message => jsOr message "An unexpected error occurred"

/-- Modelled from the spec: the non-2xx message policy exactly as claim C7
words it — the `detail` field if present, else the `message` field if
present, else the fallback string "server error: <status>".  Used only for
comparison with `classifyApiError`. -/
def specServerMessage (status : Nat) (detail message : Option String) : String :=
  match detail with
  | some d => d
  | none =>
    match message with
    | some m => m
    | none => "server error: " ++ toString status

/-- The first non-empty string among the present candidates, else the
fallback — the amended non-2xx message policy, stated independently of the
`jsOr` chain in `classifyApiError`. -/
def firstTruthy : List (Option String) → String → String
  | [], d => d
  | none :: rest, d => firstTruthy rest d
  | some s :: rest, d => if s == "" then firstTruthy rest d else s

/-- The amended non-2xx policy: first non-empty of `detail`, `message`, else
the capitalized fallback "Server error: <status>". -/
def amendedServerMessage (status : Nat) (detail message : Option String) : String :=
  firstTruthy [detail, message] ("Server error: " ++ toString status)

/-- Character-list prefix test, used to state substring containment. -/
def isPrefixChars : List Char → List Char → Bool
  | [], _ => true
  | _ :: _, [] => false
  | a :: as, b :: bs => a == b && isPrefixChars as bs

/-- Character-list substring test. -/
def isInfixChars (needle : List Char) : List Char → Bool
  | [] => needle.isEmpty
  | c :: rest => isPrefixChars needle (c :: rest) || isInfixChars needle rest

/-- Whether `needle` occurs contiguously inside `hay`. -/
def containsSub (needle hay : String) : Bool :=
  isInfixChars needle.data hay.data

/-- One turn of the conversation as stored in the `messages` state of
`App.js`.  `components`/`toolResults` are `none` when the object literal that
created the message has no such property; timestamps and ids are the
`Date.now()` values passed in explicitly. -/
structure Message where
  id : Nat
  type : String
  content : String
  timestamp : Nat
  components : Option (List Component)
  toolResults : Option (List ToolResult)
deriving DecidableEq, Repr

/-- The response body of `POST /chat` as `handleSendMessage` reads it:
`{message, components?, tool_results?}`. -/
structure ChatResponse where
  message : String
  components : Option (List Component)
  tool_results : Option (List ToolResult)
deriving DecidableEq, Repr

/-- The user message appended at the top of `handleSendMessage` (`App.js`,
lines 202-207): no `components`, no `toolResults` property. -/
def userMessage (t : Nat) (text : String) : Message :=
  { id := t, type := "user", content := text, timestamp := t,
    components := none, toolResults := none }

/-- The agent message built from a successful chat response (`App.js`,
lines 216-223): `components: response.components || []`,
`toolResults: response.tool_results || []`, id `Date.now() + 1`. -/
def buildAgentMessage (t : Nat) (resp : ChatResponse) : Message :=
  { id := t + 1, type := "agent", content := resp.message, timestamp := t,
    components := some (resp.components.getD []),
    toolResults := some (resp.tool_results.getD []) }

/-- The synthetic error message appended by the catch branch of
`handleSendMessage` (`App.js`, lines 231-237). -/
def chatErrorMessage (t : Nat) (errMessage : String) : Message :=
  { id := t + 1, type := "agent",
    content := "Sorry, I encountered an error processing your request: " ++ errMessage,
    timestamp := t, components := some [], toolResults := none }

/-- The three quick-action buttons attached to the upload success message
(`App.js`, lines 161-180). -/
def uploadButtons : List Component :=
  [ { type := "button", text := "Validate Data Quality", action := "validate_data",
      style := "primary" },
    { type := "button", text := "Detect Anomalies", action := "detect_anomalies",
      style := "secondary" },
    { type := "button", text := "Get Data Insights", action := "get_insights",
      style := "accent" } ]

/-- The success message appended by `handleDataUpload` (`App.js`,
lines 156-181). -/
def uploadSuccessMessage (t : Nat) (filePath : String) : Message :=
  { id := t, type := "agent",
    content := "Great! I've loaded your data from \"" ++ filePath ++
      "\". I can now help you validate, analyze, and fix any issues in your marketing campaign data. What would you like me to do first?",
    timestamp := t, components := some uploadButtons, toolResults := none }

/-- The error message appended by the catch branch of `handleDataUpload`
(`App.js`, lines 188-194). -/
def uploadErrorMessage (t : Nat) (errMessage : String) : Message :=
  { id := t, type := "agent",
    content := "Sorry, I couldn't load the data file. Please make sure the file path is correct and the file exists. Error: " ++ errMessage,
    timestamp := t, components := some [], toolResults := none }

/-- The greeting message the `messages` state starts from (`App.js`,
lines 122-130): id 1, empty `components`, no `toolResults`. -/
def initialMessage : Message :=
  { id := 1, type := "agent",
    content := "Hello! I'm your Marketing Campaign Data Quality Agent. I can help you validate, fix, and analyze your campaign data. To get started, please upload a CSV file with your marketing campaign data.",
    timestamp := 0, components := some [], toolResults := none }

/-- The `App` component state touched by the orchestration handlers. -/
structure AppState where
  status : Status
  messages : List Message
  dataPath : String
  isDataLoaded : Bool
deriving DecidableEq, Repr

/-- `checkBackendHealth` before its await (`App.js`, line 138):
`setAppStatus('connecting')`. -/
def healthStart (st : AppState) : AppState :=
  { st with status := .connecting }

/-- `checkBackendHealth` after completion (`App.js`, lines 139-144):
`connected` on success, `disconnected` on failure. -/
def healthFinish (st : AppState) (ok : Bool) : AppState :=
  if ok then { st with status := .connected } else { st with status := .disconnected }

/-- `handleDataUpload` before its await (`App.js`, line 149):
`setAppStatus('loading')`. -/
def uploadStart (st : AppState) : AppState :=
  { st with status := .loading }

/-- `handleDataUpload` after completion (`App.js`, lines 150-197): on success
it records the path, marks data loaded, goes `connected` and appends the
success message; on failure it goes `error` and appends the error message. -/
def uploadFinish (st : AppState) (filePath : String) (t : Nat) :
    Except String Unit → AppState
  | .ok _ =>
    { st with
        dataPath := filePath
        isDataLoaded := true
        status := .connected
        messages := st.messages ++ [uploadSuccessMessage t filePath] }
  | .error e =>
    { st with
        status := .error
        messages := st.messages ++ [uploadErrorMessage t e] }

/-- `handleSendMessage` up to its await (`App.js`, lines 201-213): the user
message is appended, then `setAppStatus('processing')`. -/
def chatStart (st : AppState) (text : String) (t : Nat) : AppState :=
  { st with
      messages := st.messages ++ [userMessage t text]
      status := .processing }

/-- `handleSendMessage` after completion (`App.js`, lines 213-240): on
success it appends the agent message and goes `connected`; on failure it goes
`error` and appends the synthetic error message. -/
def chatFinish (st : AppState) (t : Nat) : Except String ChatResponse → AppState
  | .ok resp =>
    { st with
        messages := st.messages ++ [buildAgentMessage t resp]
        status := .connected }
  | .error e =>
    { st with
        status := .error
        messages := st.messages ++ [chatErrorMessage t e] }

/-- One append to the conversation log, tagged with the `Date.now()` value
read when the appended message literal was built. -/
inductive LogEvent where
  | uploadOk (t : Nat) (filePath : String)
  | uploadErr (t : Nat) (e : String)
  | chatUser (t : Nat) (text : String)
  | chatAgentOk (t : Nat) (resp : ChatResponse)
  | chatAgentErr (t : Nat) (e : String)
deriving DecidableEq, Repr

/-- The clock reading at which an append built its message. -/
def eventTime : LogEvent → Nat
  | .uploadOk t _ => t
  | .uploadErr t _ => t
  | .chatUser t _ => t
  | .chatAgentOk t _ => t
  | .chatAgentErr t _ => t

/-- The message each append inserts, exactly as the corresponding handler
builds it. -/
def messageOfEvent : LogEvent → Message
  | .uploadOk t p => uploadSuccessMessage t p
  | .uploadErr t e => uploadErrorMessage t e
  | .chatUser t x => userMessage t x
  | .chatAgentOk t r => buildAgentMessage t r
  | .chatAgentErr t e => chatErrorMessage t e

/-- The conversation log after a sequence of appends, starting from the
initial greeting (each `setMessages(prev => [...prev, m])` appends one
message). -/
def buildLog (evs : List LogEvent) : List Message :=
  initialMessage :: evs.map messageOfEvent

/-- The time of the first event of a trace (2 when the trace is empty, so
that the lower-bound hypothesis is vacuous there). -/
def headTime : List LogEvent → Nat
  | [] => 2
  | e :: _ => eventTime e

/-- The id a log event assigns to its message. -/
def eventId (e : LogEvent) : Nat :=
  (messageOfEvent e).id

/-- A tool results list that matches the documented ToolResult shape: one
result with `status: "success"` and one issue of severity `"warning"` in its
`result.issues`. -/
def warningToolResults : List ToolResult :=
  [ { toolName := "validate_data",
      result := some { status := some "success",
                       issues := some [ { severity := "warning",
                                          description := "Missing values detected" } ],
                       result := none } } ]

/-- A chat response whose `components` and `tool_results` properties are both
absent. -/
def bareChatResponse : ChatResponse :=
  { message := "All good.", components := none, tool_results := none }

/-- A realizable append trace with non-decreasing clock readings: a chat turn
at 10 ms whose reply lands inside the same millisecond, followed by another
chat turn one millisecond later. -/
def collidingTrace : List LogEvent :=
  [ .chatUser 10 "check my data", .chatAgentErr 10 "boom",
    .chatUser 11 "check again" ]

/-- A spaced append trace used to instantiate the amended id-distinctness
statement. -/
def spacedTrace : List LogEvent :=
  [ .chatUser 2 "check my data", .chatAgentErr 4 "boom", .uploadOk 6 "a.csv" ]

/-- The button artifact of the quick-action scenario. -/
def insightsButton : Component :=
  { type := "button", text := "Get Data Insights", action := "get_insights",
    style := "accent" }

/-- A concrete non-empty chart payload. -/
def sampleChartData : ChartData :=
  { x := some ["Campaign A", "Campaign B"], y := some [120, 80] }

/-- A chart component whose `chart_type` is a value other than "line". -/
def pieChartComponent : Component :=
  { type := "chart", title := "Impressions", chart_type := some "pie",
    data := some sampleChartData }

/-- A chart component with `chart_type: "line"`. -/
def lineChartComponent : Component :=
  { type := "chart", title := "Impressions", chart_type := some "line",
    data := some sampleChartData }

/-! ## Theorems -/

/-- Claim C1 (code bug): evaluated at a tool results list that matches the
documented ToolResult shape — one result with `status: "success"` carrying an
issue of severity `"warning"` — the code derives the badge `success`, because
its warning scan dereferences `result.result?.result?.issues` (one `result`
level too deep) and so never sees issues stored at `result.issues`; the
spec's derivation yields `warning` on the same input. -/
theorem message_status_warning_branch_unreachable :
    getMessageStatus (some warningToolResults) = some "success" ∧
    specStatusDerivation (some warningToolResults) = some "warning" :=
  ⟨rfl, rfl⟩

/-- Claim C2 (code bug): a chat response with `components` and `tool_results`
absent produces a message whose two fields default to empty sequences (that
part of the claim holds), but the code still derives a `success` badge for
it, because `if (message.toolResults)` is true for an empty array; the spec's
derivation shows no badge there. -/
theorem bare_response_defaults_but_badge_shown :
    (buildAgentMessage 7 bareChatResponse).components = some [] ∧
    (buildAgentMessage 7 bareChatResponse).toolResults = some [] ∧
    getMessageStatus (buildAgentMessage 7 bareChatResponse).toolResults = some "success" ∧
    specStatusDerivation (buildAgentMessage 7 bareChatResponse).toolResults = none :=
  ⟨rfl, rfl, rfl, rfl⟩

/-- Claim C6 (confirmed): every busy entry is matched by exactly one exit on
the operation's completion — the health check goes `connecting` then
`connected`/`disconnected`, data-source registration goes `loading` then
`connected`/`error`, a chat turn goes `processing` then `connected`/`error`,
and no completed operation leaves the status busy. -/
theorem busy_states_always_exited :
    ∀ (st : AppState) (filePath text e : String) (t : Nat)
      (u : Except String Unit) (r : Except String ChatResponse) (resp : ChatResponse),
      (healthStart st).status = Status.connecting ∧
      isBusy (healthFinish st true).status = false ∧
      isBusy (healthFinish st false).status = false ∧
      (healthFinish st true).status = Status.connected ∧
      (healthFinish st false).status = Status.disconnected ∧
      (uploadStart st).status = Status.loading ∧
      isBusy (uploadFinish st filePath t u).status = false ∧
      (uploadFinish st filePath t (.ok ())).status = Status.connected ∧
      (uploadFinish st filePath t (.error e)).status = Status.error ∧
      (chatStart st text t).status = Status.processing ∧
      isBusy (chatFinish st t r).status = false ∧
      (chatFinish st t (.ok resp)).status = Status.connected ∧
      (chatFinish st t (.error e)).status = Status.error := by
  intro st filePath text e t u r resp
  refine ⟨rfl, rfl, rfl, rfl, rfl, rfl, ?_, rfl, rfl, rfl, ?_, rfl, rfl⟩
  · cases u <;> rfl
  · cases r <;> rfl

/-- Claim C3 counterexample: the connectivity failure message thrown when no
response reaches the caller does not contain the text "cannot reach backend",
and neither does the content of the synthetic error message a timed-out chat
turn appends. -/
theorem connectivity_message_lacks_claim_text :
    containsSub "cannot reach backend" (classifyApiError .noResponse) = false ∧
    containsSub "cannot reach backend"
      (chatErrorMessage 0 (classifyApiError .noResponse)).content = false :=
  ⟨rfl, rfl⟩

/-- Claim C3 as amended: a call that gets no response (network failure or the
30 s timeout) is classified with the fixed user-stable message "Cannot
connect to server. Please make sure the backend is running."; when a chat
turn so fails, the status goes from `processing` to `error` and exactly one
synthetic agent message is appended, whose content contains that fixed
message. -/
theorem chat_timeout_error_transition :
    ∀ (st : AppState) (text : String) (t0 t1 : Nat),
      (chatStart st text t0).status = Status.processing ∧
      (chatFinish (chatStart st text t0) t1
          (.error (classifyApiError .noResponse))).status = Status.error ∧
      (chatFinish (chatStart st text t0) t1
          (.error (classifyApiError .noResponse))).messages =
        (chatStart st text t0).messages ++
          [chatErrorMessage t1 (classifyApiError .noResponse)] ∧
      containsSub "Cannot connect to server. Please make sure the backend is running."
        (chatErrorMessage t1 (classifyApiError .noResponse)).content = true := by
  intro st text t0 t1
  exact ⟨rfl, rfl, rfl, rfl⟩

/-- Claim C4 counterexample: with the session status `loading` (a busy
state), a non-blank submission is accepted — the guard only tests
`appStatus === 'processing'`. -/
theorem submit_accepted_while_loading :
    submitAccepted "hello" Status.loading = true ∧
    Status.loading ≠ Status.processing := by
  exact ⟨rfl, by decide⟩

/-- Claim C4 as amended: a chat-turn submission is rejected exactly when the
trimmed input is empty or the status is `processing`; `loading` (or any
other status) does not block submission. -/
theorem submit_guard_only_blocks_processing :
    (∀ input : String, submitAccepted input Status.processing = false) ∧
    (∀ (input : String) (status : Status),
        submitAccepted input status = true ↔
          (jsTrim input ≠ "" ∧ status ≠ Status.processing)) := by
  constructor
  · intro input
    simp [submitAccepted]
  · intro input status
    simp [submitAccepted]

/-- Witness for the amended claim C4: a concrete non-blank submission while
`connected` is accepted. -/
theorem submit_guard_witness :
    submitAccepted "hello" Status.connected = true :=
  (submit_guard_only_blocks_processing.2 "hello" Status.connected).mpr
    ⟨by decide, by decide⟩

/-- Claim C7 counterexample: on a non-2xx response with neither `detail` nor
`message`, the code's fallback is "Server error: 500" while the claim
specifies "server error: 500". -/
theorem server_fallback_capitalization_differs :
    classifyApiError (.withResponse 500 none none) ≠ specServerMessage 500 none none := by
  decide

/-- Claim C7 as amended: a non-2xx response is reported with the first
non-empty of the `detail` and `message` fields, else the capitalized generic
fallback "Server error: <status>"; any other exception is reported with the
underlying exception's (non-empty) message. -/
theorem server_error_message_policy :
    (∀ (status : Nat) (detail message : Option String),
        classifyApiError (.withResponse status detail message) =
          amendedServerMessage status detail message) ∧
    (∀ em : String, em ≠ "" → classifyApiError (.other (some em)) = em) := by
  constructor
  · intro status detail message
    cases detail <;> cases message <;>
      simp [classifyApiError, amendedServerMessage, firstTruthy, jsOr]
  · intro em hem
    simp [classifyApiError, jsOr, hem]

/-- Witness for the amended claim C7 at concrete inputs. -/
theorem server_error_message_policy_witness :
    classifyApiError (.withResponse 404 none (some "not found")) =
      amendedServerMessage 404 none (some "not found") ∧
    classifyApiError (.other (some "boom")) = "boom" :=
  ⟨server_error_message_policy.1 404 none (some "not found"),
   server_error_message_policy.2 "boom" (by decide)⟩

/-- Claim C8 (confirmed): quick-action resolution is total — identifiers in
the fixed mapping resolve to their canonical prompts (all five prompts are
non-empty, so the JavaScript `||` never skips one), and identifiers absent
from the mapping pass through verbatim; in particular `validate_data`
resolves to "Please validate my data quality" and `unknown_xyz` to itself. -/
theorem quick_action_resolution_total :
    (∀ a : String, actionMap a = none → handleQuickAction a = a) ∧
    (∀ (a v : String), actionMap a = some v → handleQuickAction a = v) ∧
    handleQuickAction "validate_data" = "Please validate my data quality" ∧
    handleQuickAction "unknown_xyz" = "unknown_xyz" := by
  refine ⟨?_, ?_, rfl, rfl⟩
  · intro a h
    simp [handleQuickAction, h, jsOr]
  · intro a v h
    unfold actionMap at h
    split_ifs at h
    all_goals
      injection h with hv
      subst hv
      simp [handleQuickAction, actionMap, jsOr, *]

/-- Witness for claim C8: the theorem applied at a mapped and an unmapped
identifier. -/
theorem quick_action_resolution_witness :
    handleQuickAction "fix_data" = "Please fix the data quality issues" ∧
    handleQuickAction "unmapped_action_id" = "unmapped_action_id" :=
  ⟨quick_action_resolution_total.2.1 "fix_data" "Please fix the data quality issues" rfl,
   quick_action_resolution_total.1 "unmapped_action_id" rfl⟩

/-- The id an append assigns lies between its clock reading and that reading
plus one (`Date.now()` or `Date.now() + 1`). -/
theorem eventId_bounds (e : LogEvent) :
    eventTime e ≤ eventId e ∧ eventId e ≤ eventTime e + 1 := by
  cases e <;>
    simp [eventId, eventTime, messageOfEvent, uploadSuccessMessage,
      uploadErrorMessage, userMessage, buildAgentMessage, chatErrorMessage]

/-- If every event strictly dominates the bound `b` and consecutive clock
readings are at least 2 ms apart, the assigned ids are strictly increasing
above `b`. -/
theorem chain_lt_of_spaced :
    ∀ (evs : List LogEvent) (b : Nat),
      (∀ e, evs.head? = some e → b < eventTime e) →
      List.Chain' (fun a c => eventTime a + 2 ≤ eventTime c) evs →
      List.Chain' (· < ·) (b :: evs.map eventId) := by
  intro evs
  induction evs with
  | nil => intro b _ _; simp
  | cons e es ih =>
    intro b hb hchain
    have hbe : b < eventTime e := hb e rfl
    have hparts := List.chain'_cons'.mp hchain
    rw [List.map_cons]
    refine List.chain'_cons.mpr ⟨?_, ?_⟩
    · have h1 := (eventId_bounds e).1
      omega
    · refine ih (eventId e) ?_ hparts.2
      intro e' he'
      have h2 := hparts.1 e' (by rw [he']; rfl)
      have h3 := (eventId_bounds e).2
      omega

/-- Claim C5 counterexample: a realizable trace with non-decreasing clock
readings — a chat turn at 10 ms answered within the same millisecond,
followed by another chat turn at 11 ms — inserts two messages with the same
id 11, so the ids ever inserted are not pairwise distinct. -/
theorem log_ids_can_collide :
    List.Chain' (fun a b => eventTime a ≤ eventTime b) collidingTrace ∧
    ¬ ((buildLog collidingTrace).map Message.id).Nodup := by
  constructor
  · simp [collidingTrace, List.chain'_cons, List.chain'_singleton, eventTime]
  · decide

/-- Claim C5 as amended: every successful append grows the log by exactly
one message, and the creation-time-derived ids are pairwise distinct
provided consecutive appends read clocks at least 2 ms apart and the first
append happens at or after 2 ms — without such spacing ids may collide. -/
theorem log_append_and_spaced_ids_distinct :
    (∀ (evs : List LogEvent) (e : LogEvent),
        (buildLog (evs ++ [e])).length = (buildLog evs).length + 1) ∧
    (∀ evs : List LogEvent,
        List.Chain' (fun a b => eventTime a + 2 ≤ eventTime b) evs →
        2 ≤ headTime evs →
        ((buildLog evs).map Message.id).Nodup) := by
  constructor
  · intro evs e
    simp [buildLog]
  · intro evs hchain hhead
    have hids : (buildLog evs).map Message.id = 1 :: evs.map eventId := by
      simp [buildLog, initialMessage, List.map_map]
      exact fun a _ => rfl
    rw [hids]
    have hlt : List.Chain' (· < ·) (1 :: evs.map eventId) := by
      refine chain_lt_of_spaced evs 1 ?_ hchain
      intro e he
      cases evs with
      | nil => exact Option.noConfusion he
      | cons e0 es =>
        have : e0 = e := by
          have := he
          simp [List.head?] at this
          exact this
        subst this
        simpa [headTime] using hhead
    have hpw : List.Pairwise (· < ·) (1 :: evs.map eventId) :=
      List.chain'_iff_pairwise.mp hlt
    exact hpw.imp fun h => Nat.ne_of_lt h

/-- Witness for the amended claim C5: a trace spaced 2 ms apart yields
pairwise distinct ids. -/
theorem log_ids_distinct_witness :
    ((buildLog spacedTrace).map Message.id).Nodup :=
  log_append_and_spaced_ids_distinct.2 spacedTrace
    (by simp [spacedTrace, List.chain'_cons, List.chain'_singleton, eventTime])
    (by decide)

/-- A button component renders inline as its `ActionButton`. -/
theorem renderComponent_of_button (c : Component) (h : isButtonComponent c = true) :
    renderComponent c = some (.button c.text c.action c.style) := by
  have ht : c.type = "button" := by simpa [isButtonComponent] using h
  simp [renderComponent, ht]

/-- A non-button component never renders as a button. -/
theorem renderComponent_not_button (c : Component) (h : isButtonComponent c = false)
    (r : Rendered) (hr : renderComponent c = some r) :
    isRenderedButton r = false := by
  have ht : ¬ c.type = "button" := by simpa [isButtonComponent] using h
  unfold renderComponent at hr
  split_ifs at hr with h1 h2 h3
  · cases hr
    rfl
  · cases hr
    unfold renderChart
    split_ifs <;> rfl
  · exact absurd (by simpa using h3) ht

/-- The buttons among the inline-rendered artifacts, in order, are exactly
the rendered quick-action strip. -/
theorem inline_buttons_eq_strip (cs : List Component) :
    (renderInline cs).filter isRenderedButton = renderStrip cs := by
  induction cs with
  | nil => rfl
  | cons c cs ih =>
    by_cases hb : isButtonComponent c = true
    · have hr := renderComponent_of_button c hb
      simpa [renderInline, renderStrip, stripButtons, List.filterMap_cons, hr,
        List.filter_cons, hb, isRenderedButton] using ih
    · have hb' : isButtonComponent c = false := by simpa using hb
      cases hrc : renderComponent c with
      | none =>
        simpa [renderInline, renderStrip, stripButtons, List.filterMap_cons, hrc,
          List.filter_cons, hb'] using ih
      | some r =>
        have hnr := renderComponent_not_button c hb' r hrc
        simpa [renderInline, renderStrip, stripButtons, List.filterMap_cons, hrc,
          List.filter_cons, hb', hnr] using ih

/-- Claim C9 (confirmed): when a message's components contain at least one
button artifact, the quick-action strip is shown, the buttons rendered inline
(in component order) are exactly the buttons duplicated into the strip, the
strip holds one `ActionButton` per button component in order, and invoking
the `get_insights` button dispatches the chat text "Please give me insights
about my campaign data". -/
theorem button_artifacts_inline_and_strip :
    ∀ cs : List Component, stripButtons cs ≠ [] →
      stripShown cs = true ∧
      (renderInline cs).filter isRenderedButton = renderStrip cs ∧
      renderStrip cs =
        (stripButtons cs).map (fun b => Rendered.button b.text b.action b.style) ∧
      handleQuickAction "get_insights" = "Please give me insights about my campaign data" := by
  intro cs hne
  refine ⟨?_, inline_buttons_eq_strip cs, rfl, rfl⟩
  cases h : stripButtons cs with
  | nil => exact absurd h hne
  | cons b bs => simp [stripShown, h]

/-- Witness for claim C9: the theorem applied to a components list holding
the single `get_insights` button artifact. -/
theorem button_artifacts_witness :
    stripShown [insightsButton] = true ∧
    (renderInline [insightsButton]).filter isRenderedButton = renderStrip [insightsButton] ∧
    renderStrip [insightsButton] =
      (stripButtons [insightsButton]).map
        (fun b => Rendered.button b.text b.action b.style) ∧
    handleQuickAction "get_insights" = "Please give me insights about my campaign data" :=
  button_artifacts_inline_and_strip [insightsButton] (by decide)

/-- Claim C10 (confirmed): for a chart artifact with displayable data, a
`chart_type` that is absent or holds any value other than the exact string
"line" renders as a bar chart (via `component.chart_type || 'bar'` and
`type === 'line' ? Line : Bar`), and exactly the value "line" renders as a
line chart. -/
theorem chart_kind_defaults_to_bar :
    ∀ c : Component, c.type = "chart" → hasChartData c.data = true →
      (c.chart_type ≠ some "line" →
        renderComponent c = some (.chartBar c.title c.data)) ∧
      (c.chart_type = some "line" →
        renderComponent c = some (.chartLine c.title c.data)) := by
  intro c hty hdata
  constructor
  · intro hne
    rcases hct : c.chart_type with _ | s
    · simp [renderComponent, hty, renderChart, hdata, hct, jsOr]
    · have hs : ¬ s = "line" := fun h => hne (by rw [hct, h])
      by_cases he : s = ""
      · simp [renderComponent, hty, renderChart, hdata, hct, jsOr, he]
      · simp [renderComponent, hty, renderChart, hdata, hct, jsOr, he, hs]
  · intro hline
    simp [renderComponent, hty, renderChart, hdata, hline, jsOr]

/-- Witness for claim C10: a `"pie"` chart renders as a bar chart and a
`"line"` chart as a line chart. -/
theorem chart_kind_defaults_to_bar_witness :
    renderComponent pieChartComponent =
      some (.chartBar "Impressions" (some sampleChartData)) ∧
    renderComponent lineChartComponent =
      some (.chartLine "Impressions" (some sampleChartData)) :=
  ⟨(chart_kind_defaults_to_bar pieChartComponent rfl rfl).1 (by decide),
   (chart_kind_defaults_to_bar lineChartComponent rfl rfl).2 rfl⟩

end DataQualityAgent
